import Mathlib

/-!
# Verification of the CTHRU CLI query-translation and rendering engine

Shallow embedding of `cthru.py`: the query builder (`build_query`), the
reduced settlements/revenue parameter builders, the result renderers
(`format_table`, `format_csv`), the output writer (`output_results`) and
the snapshot-filename sanitization, together with theorems settling the
frozen claims about them.

Modelling conventions:
* Python `str` values are Lean `String`s; optional CLI arguments are
  `Option` fields.  An attribute that does not exist on a command's
  namespace (Python `hasattr(args, f)` is false) is modelled as the field
  being `none`: `hasattr(args, f) and args.f` agrees with truthiness of
  the `Option` field in every case the program exercises.
* Python float arguments (`--min-amount`, `--max-amount`) are used by the
  code only via their printed representation inside an f-string, so they
  are carried as that printed string (`Option String`); their
  `is not None` test becomes `Option.isSome`.
* JSON scalar record values are the inductive `JVal`; `str(v)` is `pyStr`.
* Python dicts that are built by successive insertion of distinct keys
  (the query-parameter mapping) are ordered association lists.
* The wall clock is passed in as explicit timestamp strings.
-/

/-- Truthiness of an optional Python string (`if args.x:`): `None` and the
empty string are falsy. -/
def strTruthy : Option String → Bool
  | none => false
  | some s => !s.isEmpty

/-- Truthiness of an optional Python int (`if args.offset:`): `None` and
`0` are falsy. -/
def intTruthy : Option Int → Bool
  | none => false
  | some n => n != 0

/-- The parsed command-line arguments relevant to the engine (spec
`FilterSpec`).  Fields that a given subcommand's parser does not define
are `none` on that command's invocations. -/
structure Args where
  command : String := ""
  limit : Int := 100
  offset : Option Int := none
  year : Option String := none
  dept : Option String := none
  vendor : Option String := none
  fund : Option String := none
  min_amount : Option String := none
  max_amount : Option String := none
  name : Option String := none
  search : Option String := none
  sort : Option String := none
  format : String := "table"
  output : Option String := none
  url : Bool := false
  save_json : Bool := false
deriving Repr, DecidableEq

/-- The substring predicate `upper(field) like upper('%value%')` used by
the department/vendor/fund/name/search filters. -/
def likeUpper (field val : String) : String :=
  "upper(" ++ field ++ ") like upper('%" ++ val ++ "%')"

/-- Year filter clause of `build_query` (quoted exact match on
`budget_fiscal_year` for spending, unquoted on `year` for payroll). -/
def yearClause (args : Args) (dataset_key : String) : List String :=
  if strTruthy args.year then
    if dataset_key = "spending" then
      ["budget_fiscal_year = '" ++ args.year.getD "" ++ "'"]
    else if dataset_key = "payroll" then
      ["year = " ++ args.year.getD ""]
    else []
  else []

/-- Department filter clause of `build_query`. -/
def deptClause (args : Args) (dataset_key : String) : List String :=
  if strTruthy args.dept then
    if dataset_key = "spending" then
      [likeUpper "department" (args.dept.getD "")]
    else if dataset_key = "payroll" then
      [likeUpper "department_division" (args.dept.getD "")]
    else []
  else []

/-- Vendor filter clause of `build_query` (spending only; guarded by
`hasattr`, i.e. the field is `none` on other commands). -/
def vendorClause (args : Args) : List String :=
  if strTruthy args.vendor then [likeUpper "vendor" (args.vendor.getD "")] else []

/-- Fund filter clause of `build_query` (spending only). -/
def fundClause (args : Args) : List String :=
  if strTruthy args.fund then [likeUpper "fund" (args.fund.getD "")] else []

/-- Minimum-amount clause of `build_query` (`is not None` test, so any
present value is active). -/
def minAmountClause (args : Args) (dataset_key : String) : List String :=
  match args.min_amount with
  | some v =>
      if dataset_key = "spending" then ["amount >= " ++ v]
      else if dataset_key = "payroll" then ["pay_total_actual >= " ++ v]
      else []
  | none => []

/-- Maximum-amount clause of `build_query`. -/
def maxAmountClause (args : Args) (dataset_key : String) : List String :=
  match args.max_amount with
  | some v =>
      if dataset_key = "spending" then ["amount <= " ++ v]
      else if dataset_key = "payroll" then ["pay_total_actual <= " ++ v]
      else []
  | none => []

/-- Name filter clause of `build_query` (payroll only). -/
def nameClause (args : Args) : List String :=
  if strTruthy args.name then
    ["(" ++ likeUpper "name_first" (args.name.getD "") ++ " OR "
        ++ likeUpper "name_last" (args.name.getD "") ++ ")"]
  else []

/-- Search filter clause of `build_query` (dataset-specific disjunction). -/
def searchClause (args : Args) (dataset_key : String) : List String :=
  if strTruthy args.search then
    if dataset_key = "spending" then
      ["(" ++ likeUpper "vendor" (args.search.getD "") ++ " OR "
          ++ likeUpper "department" (args.search.getD "") ++ ")"]
    else if dataset_key = "payroll" then
      ["(" ++ likeUpper "name_first" (args.search.getD "") ++ " OR "
          ++ likeUpper "name_last" (args.search.getD "") ++ " OR "
          ++ likeUpper "department_division" (args.search.getD "") ++ ")"]
    else []
  else []

/-- The list `where_clauses` accumulated by `build_query`, in the source's
append order: year, department, vendor, fund, min-amount, max-amount,
name, search. -/
def whereClauses (args : Args) (dataset_key : String) : List String :=
  yearClause args dataset_key ++ deptClause args dataset_key
    ++ vendorClause args ++ fundClause args
    ++ minAmountClause args dataset_key ++ maxAmountClause args dataset_key
    ++ nameClause args ++ searchClause args dataset_key

/-- `build_query(args, dataset_key)`: the ordered SoQL parameter mapping.
`$limit` always; `$offset` when truthy; `$where` when at least one clause
was produced; `$order` when a sort string is present. -/
def build_query (args : Args) (dataset_key : String) : List (String × String) :=
  [("$limit", toString args.limit)]
    ++ (if intTruthy args.offset then [("$offset", toString (args.offset.getD 0))] else [])
    ++ (if (whereClauses args dataset_key).isEmpty then []
        else [("$where", String.intercalate " AND " (whereClauses args dataset_key))])
    ++ (if strTruthy args.sort then [("$order", args.sort.getD "")] else [])

/-- The invocation of claim C1: `spending --vendor "W. B MASON" --year
2024 --limit 50`. -/
def c1Args : Args :=
  { command := "spending", limit := 50, year := some "2024", vendor := some "W. B MASON" }

/-- Claim C1 (counterexample): on `spending` with vendor "W. B MASON",
year 2024, limit 50, the builder does NOT produce the claimed mapping in
which the vendor predicate precedes the year predicate. -/
theorem c1_counterexample :
    build_query c1Args "spending" ≠
      [("$limit", "50"),
       ("$where",
        "upper(vendor) like upper('%W. B MASON%') AND budget_fiscal_year = '2024'")] := by
  decide

/-- Claim C1 (amended): the builder returns exactly `$limit = "50"` and
`$where = "budget_fiscal_year = '2024' AND upper(vendor) like
upper('%W. B MASON%')"`: the year predicate precedes the vendor
predicate. -/
theorem c1_amended_query :
    build_query c1Args "spending" =
      [("$limit", "50"),
       ("$where",
        "budget_fiscal_year = '2024' AND upper(vendor) like upper('%W. B MASON%')")] := by
  decide

/-- The reduced parameter builder shared by `cmd_settlements` and
`cmd_revenue`: only `$limit`, truthy `$offset`, and a generic `$q`. -/
def settlements_params (args : Args) : List (String × String) :=
  [("$limit", toString args.limit)]
    ++ (if intTruthy args.offset then [("$offset", toString (args.offset.getD 0))] else [])
    ++ (if strTruthy args.search then [("$q", args.search.getD "")] else [])

/-- Claim C6: `$where` is present in the built parameters exactly when at
least one filter produced a predicate clause. -/
theorem where_key_iff_clauses (args : Args) (dataset_key : String) :
    List.lookup "$where" (build_query args dataset_key) ≠ none ↔
      whereClauses args dataset_key ≠ [] := by
  unfold build_query
  by_cases hw : (whereClauses args dataset_key).isEmpty
  · have h' : whereClauses args dataset_key = [] := List.isEmpty_iff.mp hw
    by_cases ho : intTruthy args.offset <;> by_cases hs : strTruthy args.sort <;>
      simp [ho, hw, hs, h', List.lookup]
  · have h' : whereClauses args dataset_key ≠ [] := by
      simpa [List.isEmpty_iff] using hw
    by_cases ho : intTruthy args.offset <;> by_cases hs : strTruthy args.sort <;>
      simp [ho, hw, hs, h', List.lookup]

/-- Claim C7 (amended): `$limit` is always present and is the decimal
rendering of the user-supplied integer limit, whatever its sign. -/
theorem limit_value (args : Args) (dataset_key : String) :
    List.lookup "$limit" (build_query args dataset_key) = some (toString args.limit) := by
  simp [build_query, List.lookup]

/-- Whether a string is the decimal representation of a positive integer:
nonempty, all digits, and parsing back as a natural number yields a
positive value. -/
def isPosIntRepr (s : String) : Bool :=
  !s.isEmpty && s.data.all Char.isDigit && 0 < (s.toNat?.getD 0)

/-- Claim C7 (counterexample): the program accepts `--limit -5` (argparse
`type=int` places no positivity constraint), and the `$limit` value it
sends is `"-5"`, which is not the decimal representation of a positive
integer. -/
theorem limit_not_always_positive :
    List.lookup "$limit" (build_query { command := "spending", limit := -5 } "spending")
        = some "-5"
      ∧ isPosIntRepr "-5" = false := by
  constructor
  · decide
  · decide

/-- The `$where` entry of the built parameters: present with the
`" AND "`-join of the clause list exactly when that list is nonempty. -/
theorem lookup_where (args : Args) (dataset_key : String) :
    List.lookup "$where" (build_query args dataset_key) =
      (if (whereClauses args dataset_key).isEmpty then none
       else some (String.intercalate " AND " (whereClauses args dataset_key))) := by
  unfold build_query
  by_cases hw : (whereClauses args dataset_key).isEmpty <;>
    by_cases ho : intTruthy args.offset <;> by_cases hs : strTruthy args.sort <;>
      simp [ho, hw, hs, List.lookup]

/-- Claim C9: an offset of 0 (like an absent offset) produces no
`$offset` key, in `build_query` and in the reduced settlements/revenue
builder alike; a nonzero offset produces `$offset` with its decimal
rendering. -/
theorem offset_zero_treated_as_absent (args : Args) (dataset_key : String) :
    (args.offset = some 0 ∨ args.offset = none →
      List.lookup "$offset" (build_query args dataset_key) = none
        ∧ List.lookup "$offset" (settlements_params args) = none)
    ∧ (∀ n : Int, args.offset = some n → n ≠ 0 →
        List.lookup "$offset" (build_query args dataset_key) = some (toString n)
          ∧ List.lookup "$offset" (settlements_params args) = some (toString n)) := by
  constructor
  · intro h
    have ho : intTruthy args.offset = false := by
      rcases h with h | h <;> simp [intTruthy, h]
    unfold build_query settlements_params
    by_cases hw : (whereClauses args dataset_key).isEmpty <;>
      by_cases hs : strTruthy args.sort <;> by_cases hq : strTruthy args.search <;>
        simp [ho, hw, hs, hq, List.lookup]
  · intro n hn hnz
    have ho : intTruthy args.offset = true := by simp [intTruthy, hn, hnz]
    have hg : args.offset.getD 0 = n := by simp [hn]
    unfold build_query settlements_params
    by_cases hw : (whereClauses args dataset_key).isEmpty <;>
      by_cases hs : strTruthy args.sort <;> by_cases hq : strTruthy args.search <;>
        simp [ho, hg, hw, hs, hq, List.lookup]

/-- Witness for the offset claim at offset 0 (both builders drop the key)
and at offset 3 (both builders keep it). -/
theorem offset_zero_treated_as_absent_witness :
    (List.lookup "$offset" (build_query { command := "spending", offset := some 0 } "spending") = none
      ∧ List.lookup "$offset" (settlements_params { command := "spending", offset := some 0 }) = none)
    ∧ (List.lookup "$offset" (build_query { command := "spending", offset := some 3 } "spending") = some "3"
      ∧ List.lookup "$offset" (settlements_params { command := "spending", offset := some 3 }) = some "3") :=
  ⟨(offset_zero_treated_as_absent { command := "spending", offset := some 0 } "spending").1
      (Or.inl rfl),
   (offset_zero_treated_as_absent { command := "spending", offset := some 3 } "spending").2
      3 rfl (by decide)⟩

/-- Modelled from the spec (§4.1, §8): the predicate-clause list for the
spending dataset, one clause per active filter, written out with the
spec's field/operator mapping, in the spec's fixed order year,
department, vendor, fund, min-amount, max-amount, search (the name filter
is payroll-only and so has no spending mapping). -/
def specSpendingClauses (args : Args) : List String :=
  (if strTruthy args.year then
      ["budget_fiscal_year = '" ++ args.year.getD "" ++ "'"]
    else [])
    ++ (if strTruthy args.dept then
      ["upper(department) like upper('%" ++ args.dept.getD "" ++ "%')"]
    else [])
    ++ (if strTruthy args.vendor then
      ["upper(vendor) like upper('%" ++ args.vendor.getD "" ++ "%')"]
    else [])
    ++ (if strTruthy args.fund then
      ["upper(fund) like upper('%" ++ args.fund.getD "" ++ "%')"]
    else [])
    ++ (match args.min_amount with
        | some v => ["amount >= " ++ v]
        | none => [])
    ++ (match args.max_amount with
        | some v => ["amount <= " ++ v]
        | none => [])
    ++ (if strTruthy args.search then
      ["(upper(vendor) like upper('%" ++ args.search.getD ""
          ++ "%') OR upper(department) like upper('%" ++ args.search.getD "" ++ "%'))"]
    else [])

/-- Claim C2: on the spending dataset (whose parser defines no `--name`
flag, so `name` is absent), each active filter contributes exactly one
clause with the spec's §4.1 field/operator mapping, the clauses appear in
the fixed order, and `$where` is their `" AND "`-join when any are
active. -/
theorem spending_clause_mapping (args : Args) (hname : args.name = none) :
    whereClauses args "spending" = specSpendingClauses args
    ∧ List.lookup "$where" (build_query args "spending") =
        (if specSpendingClauses args = [] then none
         else some (String.intercalate " AND " (specSpendingClauses args))) := by
  have h1 : whereClauses args "spending" = specSpendingClauses args := by
    obtain ⟨c, lim, off, yr, dp, vd, fd, mn, mx, nm, sr, st, fm, op, u, sj⟩ := args
    cases show nm = none from hname
    unfold whereClauses specSpendingClauses yearClause deptClause vendorClause fundClause
      minAmountClause maxAmountClause nameClause searchClause likeUpper
    simp only [strTruthy, Bool.false_eq_true, if_false, List.append_nil, String.append_assoc]
    rfl
  refine ⟨h1, ?_⟩
  rw [lookup_where, h1]
  by_cases he : specSpendingClauses args = [] <;> simp [he, List.isEmpty_iff]

/-- Witness for the spending clause-mapping claim at the C1 invocation. -/
theorem spending_clause_mapping_witness :
    whereClauses c1Args "spending" = specSpendingClauses c1Args
    ∧ List.lookup "$where" (build_query c1Args "spending") =
        (if specSpendingClauses c1Args = [] then none
         else some (String.intercalate " AND " (specSpendingClauses c1Args))) :=
  spending_clause_mapping c1Args rfl

/-- A JSON scalar value as found in an API record (`json.loads` of the
response body produces strings, numbers, booleans and nulls; fractional
numbers do not occur in the claims and are not modelled). -/
inductive JVal where
  | str (v : String)
  | int (v : Int)
  | bool (b : Bool)
  | null
deriving Repr, DecidableEq

/-- Python `str(...)` on a JSON scalar: identity on strings, decimal on
ints, `True`/`False` on booleans, and `None` on null. -/
def pyStr : JVal → String
  | .str v => v
  | .int v => toString v
  | .bool b => if b then "True" else "False"
  | .null => "None"

/-- A record: ordered field/value mapping from a JSON object. -/
abbrev Record := List (String × JVal)

/-- `str(row.get(col, ""))`: the shared cell stringification of
`format_table` and `format_csv` — `"None"` for a present null field,
`""` for an absent one. -/
def cellStr (row : Record) (col : String) : String :=
  match row.lookup col with
  | some v => pyStr v
  | none => ""

/-- Python slicing `s[:n]`. -/
def pyTake (s : String) (n : Nat) : String := ⟨s.data.take n⟩

/-- Python `s.ljust(w)`: pad on the right with spaces up to width `w`. -/
def ljust (s : String) (w : Nat) : String := s ++ ⟨List.replicate (w - s.length) ' '⟩

/-- Whether the string contains the character (Python `c in s`). -/
def hasChar (s : String) (c : Char) : Bool := s.data.any (fun a => a == c)

/-- `replace('"', '""')` on the character list. -/
def dqChars (l : List Char) : List Char :=
  l.flatMap (fun c => if c = '"' then ['"', '"'] else [c])

/-- `str(value).replace('"', '""')`: double every quote character. -/
def doubleQuotes (s : String) : String := ⟨dqChars s.data⟩

/-- One CSV field as emitted by `format_csv`: the quote-doubled value,
wrapped in quotes when it contains a comma, a quote or a newline. -/
def csvField (s : String) : String :=
  if hasChar (doubleQuotes s) ',' || hasChar (doubleQuotes s) '"'
      || hasChar (doubleQuotes s) '\n' then
    "\"" ++ doubleQuotes s ++ "\""
  else doubleQuotes s

/-- `format_csv`: header row of the first record's keys, then one line
per record with each value escaped by `csvField`. -/
def format_csv (data : List Record) : String :=
  match data with
  | [] => ""
  | first :: _ =>
      String.intercalate "\n"
        (String.intercalate "," (first.map Prod.fst) ::
          data.map (fun row =>
            String.intercalate ","
              ((first.map Prod.fst).map (fun col => csvField (cellStr row col)))))

/-- Modelled from the spec: the quoted-field body parser of "standard CSV
parsing" — consume until the closing quote, reading `""` as one quote;
trailing characters after the closing quote make the field malformed. -/
def parseQuotedChars : List Char → Option (List Char)
  | [] => none
  | c :: rest =>
      if c = '"' then
        match rest with
        | [] => some []
        | c2 :: rest2 =>
            if c2 = '"' then (parseQuotedChars rest2).map (fun l => '"' :: l)
            else none
      else (parseQuotedChars rest).map (fun l => c :: l)

/-- Modelled from the spec: standard CSV parsing of a single field — a
field starting with a quote is parsed as a quoted field, anything else is
taken verbatim. -/
def csvParseField (s : String) : Option String :=
  match s.data with
  | '"' :: rest => (parseQuotedChars rest).map (fun l => (⟨l⟩ : String))
  | _ => some s

theorem dqChars_cons (x : Char) (t : List Char) :
    dqChars (x :: t) = (if x = '"' then ['"', '"'] else [x]) ++ dqChars t := by
  simp [dqChars]

theorem any_dqChars (l : List Char) (c : Char) :
    (dqChars l).any (fun a => a == c) = l.any (fun a => a == c) := by
  induction l with
  | nil => rfl
  | cons x t ih =>
      by_cases hx : x = '"'
      · subst hx
        simp [dqChars_cons, List.any_append, ih, Bool.or_assoc]
      · simp [dqChars_cons, hx, List.any_append, ih]

theorem dqChars_eq_self (l : List Char) (h : l.any (fun a => a == '"') = false) :
    dqChars l = l := by
  induction l with
  | nil => rfl
  | cons x t ih =>
      simp only [List.any_cons, Bool.or_eq_false_iff, beq_eq_false_iff_ne, ne_eq] at h
      simp [dqChars_cons, h.1, ih (by simpa using h.2)]

theorem hasChar_doubleQuotes (s : String) (c : Char) :
    hasChar (doubleQuotes s) c = hasChar s c :=
  any_dqChars s.data c

theorem parseQuoted_dqChars (l : List Char) :
    parseQuotedChars (dqChars l ++ ['"']) = some l := by
  induction l with
  | nil => rfl
  | cons x t ih =>
      by_cases hx : x = '"'
      · subst hx
        rw [dqChars_cons, if_pos rfl]
        show parseQuotedChars ('"' :: '"' :: (dqChars t ++ ['"'])) = some ('"' :: t)
        rw [parseQuotedChars, if_pos rfl]
        simp [ih]
      · rw [dqChars_cons, if_neg hx]
        show parseQuotedChars (x :: (dqChars t ++ ['"'])) = some (x :: t)
        rw [parseQuotedChars.eq_def]
        show (if x = '"' then _
              else (parseQuotedChars (dqChars t ++ ['"'])).map (fun l => x :: l))
            = some (x :: t)
        rw [if_neg hx, ih]
        rfl

/-- Claim C4: a CSV value is emitted quoted (with embedded quotes
doubled) exactly when it contains a comma, a quote or a newline; and any
value containing a comma or a quote round-trips through standard CSV
field parsing. -/
theorem csv_quote_iff_roundtrip (s : String) :
    (csvField s =
      if hasChar s ',' || hasChar s '"' || hasChar s '\n' then
        "\"" ++ doubleQuotes s ++ "\""
      else s)
    ∧ ((hasChar s ',' = true ∨ hasChar s '"' = true) →
        csvParseField (csvField s) = some s) := by
  have hfield : csvField s =
      if hasChar s ',' || hasChar s '"' || hasChar s '\n' then
        "\"" ++ doubleQuotes s ++ "\""
      else doubleQuotes s := by
    unfold csvField
    simp only [hasChar_doubleQuotes]
  constructor
  · rw [hfield]
    by_cases hq : hasChar s '"'
    · simp [hq]
    · have hq' : hasChar s '"' = false := by simpa using hq
      have hd : doubleQuotes s = s := by
        unfold doubleQuotes
        rw [dqChars_eq_self s.data hq']
      rw [hd]
  · intro hor
    have hcond : (hasChar s ',' || hasChar s '"' || hasChar s '\n') = true := by
      rcases hor with h | h <;> simp [h]
    rw [hfield, hcond, if_pos rfl]
    show (parseQuotedChars (dqChars s.data ++ ['"'])).map (fun l => (⟨l⟩ : String))
        = some s
    rw [parseQuoted_dqChars]
    rfl

/-- Witness for the CSV quoting claim at a value containing both a comma
and a quote. -/
theorem csv_quote_iff_roundtrip_witness :
    csvParseField (csvField "say \"hi\", now") = some "say \"hi\", now" :=
  (csv_quote_iff_roundtrip "say \"hi\", now").2 (Or.inl (by decide))

/-- Claim C10: a present-but-null field stringifies to `"None"` (and its
CSV field is `"None"`), an absent field stringifies to `""` (CSV field
`""`), and the two renderings differ. -/
theorem null_vs_missing (row : Record) (col : String) :
    (row.lookup col = some JVal.null →
      cellStr row col = "None" ∧ csvField (cellStr row col) = "None")
    ∧ (row.lookup col = none →
      cellStr row col = "" ∧ csvField (cellStr row col) = "")
    ∧ ("None" : String) ≠ "" := by
  refine ⟨?_, ?_, by decide⟩
  · intro h
    have hc : cellStr row col = "None" := by unfold cellStr; rw [h]; rfl
    exact ⟨hc, by rw [hc]; decide⟩
  · intro h
    have hc : cellStr row col = "" := by unfold cellStr; rw [h]
    exact ⟨hc, by rw [hc]; decide⟩

/-- Witness for the null-versus-missing claim on a one-field record. -/
theorem null_vs_missing_witness :
    cellStr [("amount", JVal.null)] "amount" = "None"
    ∧ cellStr [("amount", JVal.null)] "vendor" = "" :=
  ⟨((null_vs_missing [("amount", JVal.null)] "amount").1 (by decide)).1,
   ((null_vs_missing [("amount", JVal.null)] "vendor").2.1 (by decide)).1⟩

/-- Dict key membership `c in row`. -/
def hasKey (row : Record) (c : String) : Bool := (row.lookup c).isSome

/-- The columns `format_table` shows: the supplied default columns
filtered to those present on the first record, or (when none are
supplied) the first eight keys of the first record. -/
def tableCols (data : List Record) (columns : List String) : List String :=
  match data with
  | [] => []
  | first :: _ =>
      if !columns.isEmpty then columns.filter (fun c => hasKey first c)
      else (first.map Prod.fst).take 8

/-- The computed column width of `format_table`: running maximum of the
header length and the 40-truncated cell lengths over the first 50 rows,
capped at 40. -/
def colWidth (data : List Record) (col : String) : Nat :=
  min ((data.take 50).foldl
        (fun m row => max m (pyTake (cellStr row col) 40).length) col.length)
    40

/-- A header cell: `col.ljust(w)[:w]`. -/
def headerCell (col : String) (w : Nat) : String := pyTake (ljust col w) w

/-- A data cell: `str(row.get(col, ""))[:w].ljust(w)`. -/
def rowCell (row : Record) (col : String) (w : Nat) : String :=
  ljust (pyTake (cellStr row col) w) w

/-- `format_table`: header, separator, then every row, each cell
truncated to and padded to its column's computed width. -/
def format_table (data : List Record) (columns : List String) : String :=
  match data with
  | [] => "No results found."
  | _ :: _ =>
      String.intercalate "\n"
        (String.intercalate " | "
            ((tableCols data columns).map (fun col => headerCell col (colWidth data col)))
          :: String.intercalate "-+-"
            ((tableCols data columns).map
              (fun col => (⟨List.replicate (colWidth data col) '-'⟩ : String)))
          :: data.map (fun row =>
              String.intercalate " | "
                ((tableCols data columns).map
                  (fun col => rowCell row col (colWidth data col)))))

theorem foldl_max_eq {α : Type} (f : α → Nat) (l : List α) (a : Nat) :
    l.foldl (fun m x => max m (f x)) a = max a (l.foldr (fun x m => max (f x) m) 0) := by
  induction l generalizing a with
  | nil => simp
  | cons x t ih =>
      rw [List.foldl_cons, ih (max a (f x)), List.foldr_cons, Nat.max_assoc]

theorem length_pyTake (s : String) (n : Nat) : (pyTake s n).length = min n s.length := by
  show (s.data.take n).length = min n s.data.length
  exact List.length_take _ _

theorem length_ljust (s : String) (w : Nat) (h : s.length ≤ w) :
    (ljust s w).length = w := by
  show (s.data ++ List.replicate (w - s.length) ' ').length = w
  rw [List.length_append, List.length_replicate]
  show s.length + (w - s.length) = w
  omega

theorem rowCell_length (row : Record) (col : String) (w : Nat) :
    (rowCell row col w).length = w := by
  unfold rowCell
  refine length_ljust _ _ ?_
  rw [length_pyTake]
  exact Nat.min_le_left _ _

/-- Claim C5: in table rendering of a non-empty result set, each column's
width is `min 40 (max (header length) (max truncated cell length over the
first 50 rows))`, the width never exceeds 40, and every rendered cell of
every row (also beyond the 50-row sample) fits in that width. -/
theorem table_width_and_cell_bounds (first : Record) (rest : List Record)
    (columns : List String) (col : String)
    (hcol : col ∈ tableCols (first :: rest) columns) :
    colWidth (first :: rest) col =
      min 40 (max col.length
        (((first :: rest).take 50).foldr
          (fun row m => max (pyTake (cellStr row col) 40).length m) 0))
    ∧ colWidth (first :: rest) col ≤ 40
    ∧ ∀ row ∈ first :: rest,
        (rowCell row col (colWidth (first :: rest) col)).length
          ≤ colWidth (first :: rest) col := by
  refine ⟨?_, ?_, ?_⟩
  · unfold colWidth
    rw [foldl_max_eq (fun row => (pyTake (cellStr row col) 40).length), Nat.min_comm]
  · exact Nat.min_le_right _ _
  · intro row _
    rw [rowCell_length]

/-- Witness for the table-width claim on a one-row, one-column result. -/
theorem table_width_and_cell_bounds_witness :
    colWidth [[("vendor", JVal.str "ACME CORPORATION")]] "vendor" =
      min 40 (max "vendor".length
        (([[("vendor", JVal.str "ACME CORPORATION")]].take 50).foldr
          (fun row m => max (pyTake (cellStr row "vendor") 40).length m) 0))
    ∧ colWidth [[("vendor", JVal.str "ACME CORPORATION")]] "vendor" ≤ 40
    ∧ ∀ row ∈ [[("vendor", JVal.str "ACME CORPORATION")]],
        (rowCell row "vendor"
            (colWidth [[("vendor", JVal.str "ACME CORPORATION")]] "vendor")).length
          ≤ colWidth [[("vendor", JVal.str "ACME CORPORATION")]] "vendor" :=
  table_width_and_cell_bounds [("vendor", JVal.str "ACME CORPORATION")] [] [] "vendor"
    (by decide)

/-- Python regex word character `\w`, modelled on its ASCII subset
(alphanumerics and underscore); the sanitizer's idempotence depends only
on `'_'` counting as a word character. -/
def isWordChar (c : Char) : Bool := c.isAlphanum || c = '_'

/-- `re.sub(r'[^\w]', '_', ·)` on the character list: replace every
non-word character by an underscore. -/
def subNonWord (l : List Char) : List Char :=
  l.map (fun c => if isWordChar c then c else '_')

/-- Python `str.strip('_')`: drop leading and trailing underscores. -/
def stripUnderscores (l : List Char) : List Char :=
  ((l.dropWhile (fun c => c == '_')).reverse.dropWhile (fun c => c == '_')).reverse

/-- The snapshot-filename sanitizer of `output_results`:
`re.sub(r'[^\w]', '_', s)[:20].strip('_')`. -/
def sanitize (s : String) : String :=
  ⟨stripUnderscores ((subNonWord s.data).take 20)⟩

theorem head_false_of_dropWhile (p : Char → Bool) (l : List Char) (x : Char)
    (xs : List Char) (h : l.dropWhile p = x :: xs) : p x = false := by
  induction l with
  | nil => simp [List.dropWhile] at h
  | cons a t ih =>
      by_cases ha : p a
      · rw [List.dropWhile_cons_of_pos ha] at h
        exact ih h
      · rw [List.dropWhile_cons_of_neg ha] at h
        injection h with h1 h2
        subst h1
        simpa using ha

theorem dropWhile_eq_self_of_head (p : Char → Bool) (l : List Char)
    (h : ∀ x xs, l = x :: xs → p x = false) : l.dropWhile p = l := by
  cases l with
  | nil => rfl
  | cons a t => rw [List.dropWhile_cons_of_neg (by simp [h a t rfl])]

theorem stripUnderscores_prefix_dropWhile (l : List Char) :
    stripUnderscores l <+: l.dropWhile (fun c => c == '_') := by
  unfold stripUnderscores
  conv_rhs => rw [← List.reverse_reverse (l.dropWhile (fun c => c == '_'))]
  exact List.reverse_prefix.mpr (List.dropWhile_suffix _)

theorem mem_of_mem_strip {x : List Char} {c : Char} (h : c ∈ stripUnderscores x) :
    c ∈ x :=
  (List.dropWhile_suffix _).subset ((stripUnderscores_prefix_dropWhile x).subset h)

theorem length_strip_le (x : List Char) : (stripUnderscores x).length ≤ x.length :=
  le_trans (stripUnderscores_prefix_dropWhile x).length_le (List.dropWhile_suffix _).length_le

theorem strip_left_clean (l : List Char) :
    (stripUnderscores l).dropWhile (fun c => c == '_') = stripUnderscores l := by
  apply dropWhile_eq_self_of_head
  intro x xs h
  obtain ⟨rest, hrest⟩ := stripUnderscores_prefix_dropWhile l
  rw [h] at hrest
  exact head_false_of_dropWhile _ l x (xs ++ rest) hrest.symm

theorem strip_right_clean (l : List Char) :
    ((stripUnderscores l).reverse.dropWhile (fun c => c == '_')).reverse
      = stripUnderscores l := by
  unfold stripUnderscores
  rw [List.reverse_reverse, List.dropWhile_idempotent]

theorem stripUnderscores_idem (l : List Char) :
    stripUnderscores (stripUnderscores l) = stripUnderscores l := by
  show (((stripUnderscores l).dropWhile (fun c => c == '_')).reverse.dropWhile
          (fun c => c == '_')).reverse
      = stripUnderscores l
  rw [strip_left_clean]
  exact strip_right_clean l

theorem mem_subNonWord_word (l : List Char) (c : Char) (hc : c ∈ subNonWord l) :
    isWordChar c = true := by
  simp only [subNonWord, List.mem_map] at hc
  obtain ⟨a, _, heq⟩ := hc
  by_cases hw : isWordChar a
  · rw [if_pos hw] at heq
    subst heq
    exact hw
  · rw [if_neg hw] at heq
    subst heq
    decide

theorem subNonWord_eq_self (x : List Char) (h : ∀ c ∈ x, isWordChar c = true) :
    subNonWord x = x := by
  unfold subNonWord
  calc x.map (fun c => if isWordChar c then c else '_')
      = x.map id := List.map_congr_left (fun a ha => by rw [if_pos (h a ha)]; rfl)
    _ = x := List.map_id x

/-- Claim C8: the snapshot-filename sanitizer (replace non-word characters
by underscores, truncate to 20 characters, strip leading/trailing
underscores) is idempotent. -/
theorem sanitize_idempotent (s : String) : sanitize (sanitize s) = sanitize s := by
  have key : ∀ l : List Char,
      stripUnderscores ((subNonWord (stripUnderscores ((subNonWord l).take 20))).take 20)
        = stripUnderscores ((subNonWord l).take 20) := by
    intro l
    have hword : ∀ c ∈ stripUnderscores ((subNonWord l).take 20), isWordChar c = true :=
      fun c hc =>
        mem_subNonWord_word l c (List.take_subset _ _ (mem_of_mem_strip hc))
    rw [subNonWord_eq_self _ hword,
      List.take_of_length_le (le_trans (length_strip_le _) (List.length_take_le _ _)),
      stripUnderscores_idem]
  exact congrArg String.mk (key s.data)

/-- The observable effects of one `output_results` call: lines printed to
standard output (in order) and files written as (path, content) pairs. -/
structure Effects where
  stdout : List String
  files : List (String × String)

/-- The snapshot-filename fragments: the command name, `fy<year>` when a
year is set, then the sanitized vendor, fund, department, name and search
values (the source's order), each when set. -/
def snapshotParts (args : Args) : List String :=
  [args.command]
    ++ (if strTruthy args.year then ["fy" ++ args.year.getD ""] else [])
    ++ (if strTruthy args.vendor then [sanitize (args.vendor.getD "")] else [])
    ++ (if strTruthy args.fund then [sanitize (args.fund.getD "")] else [])
    ++ (if strTruthy args.dept then [sanitize (args.dept.getD "")] else [])
    ++ (if strTruthy args.name then [sanitize (args.name.getD "")] else [])
    ++ (if strTruthy args.search then [sanitize (args.search.getD "")] else [])

/-- `"_".join(parts + [timestamp]) + ".json"`. -/
def snapshotFilename (args : Args) (timestamp : String) : String :=
  String.intercalate "_" (snapshotParts args ++ [timestamp]) ++ ".json"

/-- The metadata wrapper written to a snapshot file. -/
structure Snapshot where
  api_url : String
  portal_url : Option String
  query_timestamp : String
  record_count : Nat
  data : List Record

/-- The reconstructed API URL of the snapshot metadata: the resource URL
(f-string of the possibly-absent dataset id, hence `"None"` when absent)
plus the url-encoded parameters without `$limit`; the encoder
(`urllib.parse.urlencode`) is an external collaborator passed in. -/
def snapshotApiUrl (dataset_id : Option String) (params : List (String × String))
    (urlencode : List (String × String) → String) : String :=
  let base := "https://cthru.data.socrata.com/resource/" ++ dataset_id.getD "None" ++ ".json"
  if params.isEmpty then base
  else
    let url_params := params.filter (fun p => p.1 ≠ "$limit")
    if url_params.isEmpty then base
    else base ++ "?" ++ urlencode url_params

/-- `output_results`: early return on an empty result set; otherwise an
optional snapshot write, the rendered output to a file or stdout (with a
record-count line on stdout only), and an optional browser URL line.
The clock (`datetime.now()` as filename timestamp and ISO timestamp) and
the library serializers (`json.dumps` for the snapshot wrapper and for
the raw data) are external collaborators passed in as arguments. -/
def output_results (data : List Record) (args : Args) (default_columns : List String)
    (url : Option String) (dataset_id : Option String) (params : List (String × String))
    (ts_file ts_iso : String)
    (urlencode : List (String × String) → String)
    (dumpsSnap : Snapshot → String)
    (dumpsData : List Record → String) : Effects :=
  if data.isEmpty then { stdout := ["No results found."], files := [] }
  else
    let snapEff : Effects :=
      if args.save_json then
        { stdout := ["JSON saved to " ++ snapshotFilename args ts_file],
          files := [(snapshotFilename args ts_file,
            dumpsSnap
              { api_url := snapshotApiUrl dataset_id params urlencode,
                portal_url :=
                  if strTruthy dataset_id then
                    some ("https://cthru.data.socrata.com/d/" ++ dataset_id.getD "")
                  else none,
                query_timestamp := ts_iso,
                record_count := data.length,
                data := data })] }
      else { stdout := [], files := [] }
    let rendered :=
      if args.format = "json" then dumpsData data
      else if args.format = "csv" then format_csv data
      else format_table data default_columns
    let mainEff : Effects :=
      if strTruthy args.output then
        { stdout := ["Results saved to " ++ args.output.getD "" ++ " ("
            ++ toString data.length ++ " records)"],
          files := [(args.output.getD "", rendered)] }
      else
        { stdout := [rendered, "\n--- " ++ toString data.length ++ " records ---"],
          files := [] }
    let urlEff : Effects :=
      if args.url && strTruthy url then
        { stdout := ["\nView in browser: " ++ url.getD ""], files := [] }
      else { stdout := [], files := [] }
    { stdout := snapEff.stdout ++ mainEff.stdout ++ urlEff.stdout,
      files := snapEff.files ++ mainEff.files ++ urlEff.files }

/-- Claim C3: on an empty result set the writer prints exactly
`"No results found."` and performs no file write at all — no snapshot
even when `--save-json` was requested and no output file even when an
output path was given — for every format, option combination, clock
value and serializer. -/
theorem empty_results_no_writes (args : Args) (default_columns : List String)
    (url : Option String) (dataset_id : Option String)
    (params : List (String × String)) (ts_file ts_iso : String)
    (urlencode : List (String × String) → String)
    (dumpsSnap : Snapshot → String) (dumpsData : List Record → String) :
    output_results [] args default_columns url dataset_id params ts_file ts_iso
        urlencode dumpsSnap dumpsData
      = { stdout := ["No results found."], files := [] } := rfl
